import Mathlib

/-!
Shallow embedding of the frogger-remake game core (src/js/app.js).

Positions, sizes, speeds and time deltas are modelled as rationals.
Each call to `Math.random()` pair used by `Enemy.prototype.reset` is
modelled by an explicit draw: `Math.floor(Math.random() * 3)` becomes a
`Fin 3` and `Math.floor(Math.random() * 300)` becomes a `Fin 300`.
Operations that may consume several draws take a stream `ℕ → RandDraw`.
The canvas width (`ctx.canvas.width`, supplied by the host) is a
parameter `W`.
-/

/-- One outcome of the random draws consumed by `Enemy.prototype.reset`:
the lane index `Math.floor(Math.random() * 3)` and the raw speed draw
`Math.floor(Math.random() * 300)`. -/
structure RandDraw where
  lane : Fin 3
  sp : Fin 300
deriving DecidableEq

/-- State of an `Enemy` instance: the `width`/`height` set by the
`Entity` constructor and the `x`, `y`, `speed` fields set by
`Enemy.prototype.reset`. -/
structure Enemy where
  width : ℚ
  height : ℚ
  x : ℚ
  y : ℚ
  speed : ℚ
deriving DecidableEq

/-- `Enemy.prototype.reset`: `x = -101`;
`y = Math.floor(Math.random()*3) * 83 + 134`;
`speed = Math.floor(Math.random()*300) + 100`. -/
def Enemy.resetState (r : RandDraw) (e : Enemy) : Enemy :=
  { e with x := -101, y := (r.lane : ℚ) * 83 + 134, speed := (r.sp : ℚ) + 100 }

/-- The `Enemy` constructor: `Entity.call(this, 101, 73, ...)` sets
`width = 101`, `height = 73`, then the `Entity` constructor invokes
`this.reset()`. -/
def Enemy.init (r : RandDraw) : Enemy :=
  Enemy.resetState r { width := 101, height := 73, x := 0, y := 0, speed := 0 }

/-- `Enemy.prototype.update(dt)`: `x += speed * dt`; then if
`x > ctx.canvas.width` the enemy calls `this.reset()`. -/
def Enemy.update (W : ℚ) (dt : ℚ) (r : RandDraw) (e : Enemy) : Enemy :=
  if e.x + e.speed * dt > W then
    Enemy.resetState r { e with x := e.x + e.speed * dt }
  else
    { e with x := e.x + e.speed * dt }

/-- `Enemy.prototype.imgX`: returns `x`. -/
def Enemy.imgX (e : Enemy) : ℚ := e.x

/-- `Enemy.prototype.imgY`: returns `y - 70`. -/
def Enemy.imgY (e : Enemy) : ℚ := e.y - 70

/-- State of the `Player` instance: `width`/`height` from the `Entity`
constructor and `x`, `y`, `winner` from `Player.prototype.reset`. -/
structure Player where
  width : ℚ
  height : ℚ
  x : ℚ
  y : ℚ
  winner : Bool
deriving DecidableEq

/-- `Player.prototype.reset`: `x = 217`, `y = 466`, `winner = false`. -/
def Player.resetState (p : Player) : Player :=
  { p with x := 217, y := 466, winner := false }

/-- The `Player` constructor: `Entity.call(this, 71, 73, ...)` then
`this.reset()`. -/
def Player.init : Player :=
  Player.resetState { width := 71, height := 73, x := 0, y := 0, winner := false }

/-- `Player.prototype.update(enemies)`: the boundary check chain
`if (x < 15) x = 15; else if (x > 419) x = 419; else if (y > 466) y = 466`.
The `enemies` argument is accepted and ignored, as in the source. -/
def Player.update (enemies : List Enemy) (p : Player) : Player :=
  if p.x < 15 then { p with x := 15 }
  else if p.x > 419 then { p with x := 419 }
  else if p.y > 466 then { p with y := 466 }
  else p

/-- The symbolic keyboard keys delivered to `Game.prototype.handleInput`:
the five mapped codes, and `other` for an unmapped code (the listener
passes `allowedKeys[e.keyCode]`, which is `undefined` for other codes). -/
inductive Key where
  | left
  | up
  | right
  | down
  | enter
  | other
deriving DecidableEq

/-- `Player.prototype.handleInput(key)`: the movement switch;
keys other than the four directions fall through with no change. -/
def Player.handleInput (k : Key) (p : Player) : Player :=
  match k with
  | Key.left => { p with x := p.x + -101 }
  | Key.up => { p with y := p.y + -83 }
  | Key.right => { p with x := p.x + 101 }
  | Key.down => { p with y := p.y + 83 }
  | _ => p

/-- `Player.prototype.collidesWith(other)`:
`x < other.x + other.width && x + width > other.x &&
y < other.y + other.height && height + y > other.y`. -/
def Player.collidesWith (p : Player) (e : Enemy) : Bool :=
  decide (p.x < e.x + e.width) && decide (p.x + p.width > e.x) &&
    decide (p.y < e.y + e.height) && decide (p.height + p.y > e.y)

/-- `Player.prototype.collidesWithAnEnemy(enemies)`:
`enemies.some(enemy => this.collidesWith(enemy))`. -/
def Player.collidesWithAnEnemy (p : Player) (enemies : List Enemy) : Bool :=
  enemies.any (fun e => p.collidesWith e)

/-- `Player.prototype.imgX`: returns `x - 15`. -/
def Player.imgX (p : Player) : ℚ := p.x - 15

/-- `Player.prototype.imgY`: returns `y - 70`. -/
def Player.imgY (p : Player) : ℚ := p.y - 70

/-- State of the `Game` instance: the enemy array, the player and the
`ended` flag. -/
structure Game where
  enemies : List Enemy
  player : Player
  ended : Bool

/-- `this.enemies.forEach(enemy => enemy.reset())`: each enemy consumes
its own fresh random draw from the stream, in array order. -/
def resetEnemies (rs : ℕ → RandDraw) : List Enemy → List Enemy
  | [] => []
  | e :: es => Enemy.resetState (rs 0) e :: resetEnemies (fun n => rs (n + 1)) es

/-- `this.enemies.forEach(enemy => enemy.update(deltaTime))`: each enemy
may consume a fresh draw if its off-screen reset fires. -/
def updateEnemies (W dt : ℚ) (rs : ℕ → RandDraw) : List Enemy → List Enemy
  | [] => []
  | e :: es => Enemy.update W dt (rs 0) e :: updateEnemies W dt (fun n => rs (n + 1)) es

/-- The `Game` constructor: three fresh enemies, a fresh player,
`ended = false`. -/
def Game.init (r0 r1 r2 : RandDraw) : Game :=
  { enemies := [Enemy.init r0, Enemy.init r1, Enemy.init r2]
    player := Player.init
    ended := false }

/-- `Game.prototype.reset`: reset every enemy, reset the player,
`ended = false`. -/
def Game.reset (rs : ℕ → RandDraw) (g : Game) : Game :=
  { enemies := resetEnemies rs g.enemies
    player := Player.resetState g.player
    ended := false }

/-- `Game.prototype.updateEntities(deltaTime)`: advance every enemy,
run `player.update(enemies)`, then if the player collides with an enemy
call `this.reset()`. `rsU` feeds draws for off-screen enemy resets,
`rsR` feeds the draws of a collision-triggered `Game.reset`. -/
def Game.updateEntities (W dt : ℚ) (rsU rsR : ℕ → RandDraw) (g : Game) : Game :=
  let g1 : Game :=
    { g with
      enemies := updateEnemies W dt rsU g.enemies
      player := Player.update (updateEnemies W dt rsU g.enemies) g.player }
  if Player.collidesWithAnEnemy g1.player g1.enemies then Game.reset rsR g1 else g1

/-- `Game.prototype.renderEntities`: if `player.y < 134` set
`ended = true` (and show the winner screen, an external drawing effect);
otherwise draw the entities, mutating nothing. -/
def Game.renderEntities (g : Game) : Game :=
  if g.player.y < 134 then { g with ended := true } else g

/-- `Game.prototype.handleInput(key)`: if `ended`, only `enter` triggers
`this.reset()`; otherwise the key is forwarded to
`player.handleInput`. -/
def Game.handleInput (rs : ℕ → RandDraw) (k : Key) (g : Game) : Game :=
  if g.ended then
    if k = Key.enter then Game.reset rs g else g
  else
    { g with player := Player.handleInput k g.player }

/-!
The abstract `Entity` contract: the base prototype methods `imgX`,
`imgY` and `reset` throw a `ReferenceError` when they have not been
overridden, and the `Entity` constructor invokes `this.reset()`.
An implementor is a record of optional overrides; invoking a method
dispatches to the override when present and errors otherwise.
-/

/-- The runtime failure raised by the base `Entity` prototype methods:
`throw new ReferenceError('Method <name>() must be implemented!')`. -/
inductive EntityError where
  | unimplemented (method : String)
deriving DecidableEq

/-- A concrete entity class over state `S`: each required operation is
either overridden (`some`) or inherited from the throwing base
(`none`). -/
structure EntityOps (S : Type) where
  imgXImpl : Option (S → ℚ)
  imgYImpl : Option (S → ℚ)
  resetImpl : Option (S → S)

/-- The bare base `Entity` class: no overrides at all. -/
def Entity.baseOps (S : Type) : EntityOps S :=
  { imgXImpl := none, imgYImpl := none, resetImpl := none }

/-- Invoking `imgX`: dispatch to the override, else the base throws
eagerly. -/
def EntityOps.callImgX {S : Type} (ops : EntityOps S) (s : S) : Except EntityError ℚ :=
  match ops.imgXImpl with
  | some f => Except.ok (f s)
  | none => Except.error (EntityError.unimplemented "imgX")

/-- Invoking `imgY`: dispatch to the override, else the base throws
eagerly. -/
def EntityOps.callImgY {S : Type} (ops : EntityOps S) (s : S) : Except EntityError ℚ :=
  match ops.imgYImpl with
  | some f => Except.ok (f s)
  | none => Except.error (EntityError.unimplemented "imgY")

/-- Invoking `reset`: dispatch to the override, else the base throws
eagerly. -/
def EntityOps.callReset {S : Type} (ops : EntityOps S) (s : S) : Except EntityError S :=
  match ops.resetImpl with
  | some f => Except.ok (f s)
  | none => Except.error (EntityError.unimplemented "reset")

/-- The `Entity` constructor: store `width`/`height`/`sprite` (folded
into the initial state `s0`) and invoke `this.reset()`, propagating its
failure. -/
def Entity.construct {S : Type} (ops : EntityOps S) (s0 : S) : Except EntityError S :=
  EntityOps.callReset ops s0

/-!
## Claims
-/

/-- C2 (code evaluated at the failing input): `Enemy.prototype.reset`
computes `Math.floor(Math.random() * 300) + 100`, so the draw 299 yields
speed 399, outside the claimed range [100,299]; over all outcomes the
speed is an integer in [100,399]. -/
theorem speed_range_bug :
    (Enemy.resetState ⟨⟨0, by norm_num⟩, ⟨299, by norm_num⟩⟩ (Enemy.init ⟨0, 0⟩)).speed = 399 ∧
    ¬ (Enemy.resetState ⟨⟨0, by norm_num⟩, ⟨299, by norm_num⟩⟩ (Enemy.init ⟨0, 0⟩)).speed ≤ 299 ∧
    ∀ (r : RandDraw) (e : Enemy),
      100 ≤ (Enemy.resetState r e).speed ∧ (Enemy.resetState r e).speed ≤ 399 := by
  refine ⟨by norm_num [Enemy.resetState, Enemy.init], by norm_num [Enemy.resetState, Enemy.init], ?_⟩
  intro r e
  obtain ⟨⟨l, hl⟩, ⟨v, hv⟩⟩ := r
  have hle : (v : ℚ) ≤ 299 := by exact_mod_cast Nat.le_of_lt_succ hv
  have hge : (0 : ℚ) ≤ (v : ℚ) := by positivity
  constructor <;> simp [Enemy.resetState] <;> linarith

/-- C3: an enemy whose `x` already exceeds the canvas width is reset by
the next `update`: `x` becomes -101 and `y` becomes one of the three
lane values 134, 217, 300, for every random outcome. -/
theorem recycling_spawn (e : Enemy) (W dt : ℚ) (r : RandDraw)
    (hx : W < e.x) (hdt : 0 ≤ dt) (hs : 0 ≤ e.speed) :
    (Enemy.update W dt r e).x = -101 ∧
    ((Enemy.update W dt r e).y = 134 ∨ (Enemy.update W dt r e).y = 217 ∨
      (Enemy.update W dt r e).y = 300) := by
  have hmul : 0 ≤ e.speed * dt := mul_nonneg hs hdt
  have hcond : e.x + e.speed * dt > W := by linarith
  obtain ⟨⟨l, hl⟩, ⟨v, hv⟩⟩ := r
  simp only [Enemy.update, if_pos hcond, Enemy.resetState]
  refine ⟨by norm_num, ?_⟩
  interval_cases l <;> norm_num

/-- Witness for C3 at a concrete off-screen enemy. -/
theorem recycling_spawn_witness :
    (505 : ℚ) < 600 ∧ (0 : ℚ) ≤ 0 ∧ (0 : ℚ) ≤ 150 ∧
    ((Enemy.update 505 0 ⟨0, 0⟩
        { width := 101, height := 73, x := 600, y := 134, speed := 150 }).x = -101 ∧
      ((Enemy.update 505 0 ⟨0, 0⟩
          { width := 101, height := 73, x := 600, y := 134, speed := 150 }).y = 134 ∨
        (Enemy.update 505 0 ⟨0, 0⟩
          { width := 101, height := 73, x := 600, y := 134, speed := 150 }).y = 217 ∨
        (Enemy.update 505 0 ⟨0, 0⟩
          { width := 101, height := 73, x := 600, y := 134, speed := 150 }).y = 300)) :=
  ⟨by norm_num, le_rfl, by norm_num,
    recycling_spawn _ 505 0 ⟨0, 0⟩ (by norm_num) le_rfl (by norm_num)⟩

/-- C4: `collidesWith` holds iff the four strict inequalities hold;
flush boxes (avatar right edge = obstacle left edge) do not collide,
boxes overlapping by 1 unit on both axes do. -/
theorem collision_strictness :
    (∀ (p : Player) (e : Enemy),
      Player.collidesWith p e = true ↔
        (p.x < e.x + e.width ∧ p.x + p.width > e.x ∧
          p.y < e.y + e.height ∧ p.y + p.height > e.y)) ∧
    Player.collidesWith
      { width := 71, height := 73, x := 100, y := 134, winner := false }
      { width := 101, height := 73, x := 171, y := 134, speed := 100 } = false ∧
    Player.collidesWith
      { width := 71, height := 73, x := 100, y := 200, winner := false }
      { width := 101, height := 73, x := 170, y := 272, speed := 100 } = true := by
  refine ⟨?_, by norm_num [Player.collidesWith], by norm_num [Player.collidesWith]⟩
  intro p e
  simp only [Player.collidesWith, Bool.and_eq_true, decide_eq_true_eq, gt_iff_lt, and_assoc]
  constructor
  · rintro ⟨h1, h2, h3, h4⟩
    exact ⟨h1, h2, h3, by linarith⟩
  · rintro ⟨h1, h2, h3, h4⟩
    exact ⟨h1, h2, h3, by linarith⟩

/-- Witness for C4: the general equivalence applied at the
1-unit-overlap pair. -/
theorem collision_strictness_witness :
    Player.collidesWith
      { width := 71, height := 73, x := 100, y := 200, winner := false }
      { width := 101, height := 73, x := 170, y := 272, speed := 100 } = true :=
  (collision_strictness.1
      { width := 71, height := 73, x := 100, y := 200, winner := false }
      { width := 101, height := 73, x := 170, y := 272, speed := 100 }).mpr
    (by norm_num)

/-- C6: splitting a time delta into two `update` calls gives the same
enemy state as one combined call, provided the off-screen reset branch
fires in none of the three calls. -/
theorem frame_rate_independence (e : Enemy) (W dt1 dt2 : ℚ) (r1 r2 r3 : RandDraw)
    (h1 : e.x + e.speed * dt1 ≤ W)
    (h2 : e.x + e.speed * dt1 + e.speed * dt2 ≤ W)
    (h3 : e.x + e.speed * (dt1 + dt2) ≤ W) :
    Enemy.update W dt2 r2 (Enemy.update W dt1 r1 e) = Enemy.update W (dt1 + dt2) r3 e := by
  obtain ⟨w, ht, x, y, s⟩ := e
  simp only [Enemy.update] at h1 h2 h3 ⊢
  rw [if_neg (not_lt.mpr h1)]
  simp only []
  rw [if_neg (not_lt.mpr h2), if_neg (not_lt.mpr h3)]
  simp only [Enemy.mk.injEq, true_and, and_true]
  ring

/-- Witness for C6 at a concrete enemy and time split. -/
theorem frame_rate_independence_witness :
    ((0 : ℚ) + 100 * 1 ≤ 505) ∧ ((0 : ℚ) + 100 * 1 + 100 * 2 ≤ 505) ∧
    ((0 : ℚ) + 100 * (1 + 2) ≤ 505) ∧
    Enemy.update 505 2 ⟨0, 0⟩
        (Enemy.update 505 1 ⟨1, 1⟩
          { width := 101, height := 73, x := 0, y := 134, speed := 100 }) =
      Enemy.update 505 (1 + 2) ⟨2, 2⟩
        { width := 101, height := 73, x := 0, y := 134, speed := 100 } :=
  ⟨by norm_num, by norm_num, by norm_num,
    frame_rate_independence _ 505 1 2 ⟨1, 1⟩ ⟨0, 0⟩ ⟨2, 2⟩
      (by norm_num) (by norm_num) (by norm_num)⟩

/-- C1 counterexample: with the avatar at (100,100) (so y < 134) and an
overlapping obstacle at (100,134), one `updateEntities` tick performs
the full reset — the player ends at (217,466) with `winner = false` —
rather than producing a won state. -/
theorem win_precedence_cex :
    ({ enemies := [{ width := 101, height := 73, x := 100, y := 134, speed := 0 }],
       player := { width := 71, height := 73, x := 100, y := 100, winner := false },
       ended := false } : Game).player.y < 134 ∧
    Player.collidesWithAnEnemy
      ({ width := 71, height := 73, x := 100, y := 100, winner := false } : Player)
      [{ width := 101, height := 73, x := 100, y := 134, speed := 0 }] = true ∧
    (Game.updateEntities 505 0 (fun _ => ⟨0, 0⟩) (fun _ => ⟨0, 0⟩)
      { enemies := [{ width := 101, height := 73, x := 100, y := 134, speed := 0 }],
        player := { width := 71, height := 73, x := 100, y := 100, winner := false },
        ended := false }).player.winner = false ∧
    (Game.updateEntities 505 0 (fun _ => ⟨0, 0⟩) (fun _ => ⟨0, 0⟩)
      { enemies := [{ width := 101, height := 73, x := 100, y := 134, speed := 0 }],
        player := { width := 71, height := 73, x := 100, y := 100, winner := false },
        ended := false }).player.x = 217 ∧
    (Game.updateEntities 505 0 (fun _ => ⟨0, 0⟩) (fun _ => ⟨0, 0⟩)
      { enemies := [{ width := 101, height := 73, x := 100, y := 134, speed := 0 }],
        player := { width := 71, height := 73, x := 100, y := 100, winner := false },
        ended := false }).player.y = 466 := by
  refine ⟨by norm_num, ?_, ?_, ?_, ?_⟩ <;>
    norm_num [Game.updateEntities, updateEnemies, Enemy.update, Player.update,
      Player.collidesWithAnEnemy, Player.collidesWith, List.any_cons, List.any_nil,
      Game.reset, resetEnemies, Enemy.resetState, Player.resetState]

/-- C1 amended: in `updateEntities` a collision (after the enemy advance
and the player clamp) always triggers the full reset — the player ends
at (217,466) with `winner = false` and `ended = false` — regardless of
the avatar's y; no win check occurs during the update. -/
theorem win_precedence_amended (g : Game) (W dt : ℚ) (rsU rsR : ℕ → RandDraw)
    (hcol : Player.collidesWithAnEnemy
      (Player.update (updateEnemies W dt rsU g.enemies) g.player)
      (updateEnemies W dt rsU g.enemies) = true) :
    (Game.updateEntities W dt rsU rsR g).player.x = 217 ∧
    (Game.updateEntities W dt rsU rsR g).player.y = 466 ∧
    (Game.updateEntities W dt rsU rsR g).player.winner = false ∧
    (Game.updateEntities W dt rsU rsR g).ended = false := by
  simp [Game.updateEntities, hcol, Game.reset, Player.resetState]

/-- Witness for the amended C1 at the concrete overlapping state. -/
theorem win_precedence_amended_witness :
    Player.collidesWithAnEnemy
      (Player.update
        (updateEnemies 505 0 (fun _ => ⟨0, 0⟩)
          [{ width := 101, height := 73, x := 100, y := 134, speed := 0 }])
        { width := 71, height := 73, x := 100, y := 100, winner := false })
      (updateEnemies 505 0 (fun _ => ⟨0, 0⟩)
        [{ width := 101, height := 73, x := 100, y := 134, speed := 0 }]) = true ∧
    (Game.updateEntities 505 0 (fun _ => ⟨0, 0⟩) (fun _ => ⟨0, 0⟩)
      { enemies := [{ width := 101, height := 73, x := 100, y := 134, speed := 0 }],
        player := { width := 71, height := 73, x := 100, y := 100, winner := false },
        ended := false }).ended = false := by
  refine ⟨?_, ?_⟩
  · norm_num [updateEnemies, Enemy.update, Player.update,
      Player.collidesWithAnEnemy, Player.collidesWith, List.any_cons, List.any_nil]
  · exact (win_precedence_amended
      { enemies := [{ width := 101, height := 73, x := 100, y := 134, speed := 0 }],
        player := { width := 71, height := 73, x := 100, y := 100, winner := false },
        ended := false } 505 0 (fun _ => ⟨0, 0⟩) (fun _ => ⟨0, 0⟩)
      (by norm_num [updateEnemies, Enemy.update, Player.update,
        Player.collidesWithAnEnemy, Player.collidesWith, List.any_cons, List.any_nil])).2.2.2

/-- C5 counterexample: the reachable state obtained from the spawn by
the inputs left, left, left, down sits at (-86, 549); one `update`
clamps x to 15 but leaves y = 549 > 466 (the clamps are an else-if
chain, so only one runs per call). -/
theorem bounds_clamping_cex :
    (Player.update []
      (Player.handleInput Key.down (Player.handleInput Key.left
        (Player.handleInput Key.left (Player.handleInput Key.left Player.init))))).x = 15 ∧
    (Player.update []
      (Player.handleInput Key.down (Player.handleInput Key.left
        (Player.handleInput Key.left (Player.handleInput Key.left Player.init))))).y = 549 ∧
    ¬ (Player.update []
      (Player.handleInput Key.down (Player.handleInput Key.left
        (Player.handleInput Key.left (Player.handleInput Key.left Player.init))))).y ≤ 466 := by
  refine ⟨?_, ?_, ?_⟩ <;>
    norm_num [Player.update, Player.handleInput, Player.init, Player.resetState]

/-- After one `Player.update` the x coordinate always lies in [15,419]. -/
lemma update_x_bounds (es : List Enemy) (p : Player) :
    15 ≤ (Player.update es p).x ∧ (Player.update es p).x ≤ 419 := by
  simp only [Player.update]
  split_ifs with h1 h2 h3
  · exact ⟨le_refl _, by norm_num⟩
  · exact ⟨by norm_num, le_refl _⟩
  · exact ⟨not_lt.mp h1, not_lt.mp h2⟩
  · exact ⟨not_lt.mp h1, not_lt.mp h2⟩

/-- When x is already in range, `Player.update` leaves x alone and
clamps only y. -/
lemma update_of_x_in_range (es : List Enemy) (p : Player)
    (h1 : 15 ≤ p.x) (h2 : p.x ≤ 419) :
    (Player.update es p).x = p.x ∧ (Player.update es p).y ≤ 466 := by
  simp only [Player.update, if_neg (not_lt.mpr h1), if_neg (not_lt.mpr h2)]
  split_ifs with h
  · exact ⟨rfl, le_refl _⟩
  · exact ⟨rfl, not_lt.mp h⟩

/-- C5 amended: one `Player.update` clamps x into [15,419]; y ≤ 466 is
additionally guaranteed only when x was already in [15,419] before the
call (the clamps form an else-if chain, so at most one fires per call);
after two consecutive updates both bounds hold unconditionally. -/
theorem bounds_clamping_amended (p : Player) (es es2 : List Enemy) :
    (15 ≤ (Player.update es p).x ∧ (Player.update es p).x ≤ 419) ∧
    (15 ≤ p.x → p.x ≤ 419 →
      (Player.update es p).x = p.x ∧ (Player.update es p).y ≤ 466) ∧
    ((Player.update es2 (Player.update es p)).y ≤ 466 ∧
      15 ≤ (Player.update es2 (Player.update es p)).x ∧
      (Player.update es2 (Player.update es p)).x ≤ 419) := by
  obtain ⟨hx1, hx2⟩ := update_x_bounds es p
  exact ⟨⟨hx1, hx2⟩,
    fun h1 h2 => update_of_x_in_range es p h1 h2,
    (update_of_x_in_range es2 _ hx1 hx2).2, update_x_bounds es2 _⟩

/-- Witness for the amended C5 at the spawn state. -/
theorem bounds_clamping_amended_witness :
    (15 : ℚ) ≤ Player.init.x ∧ Player.init.x ≤ 419 ∧
    (Player.update [] Player.init).x = Player.init.x ∧
    (Player.update [] Player.init).y ≤ 466 := by
  refine ⟨?_, ?_, ?_⟩
  · norm_num [Player.init, Player.resetState]
  · norm_num [Player.init, Player.resetState]
  · exact (bounds_clamping_amended Player.init [] []).2.1
      (by norm_num [Player.init, Player.resetState])
      (by norm_num [Player.init, Player.resetState])

/-- C7: while `ended`, every key other than `enter` leaves the whole
game state (in particular the avatar position) unchanged; `enter`
resets the avatar to (217,466) with `winner = false` and returns the
game to Playing (`ended = false`); while not ended, an unrecognized key
is a no-op. -/
theorem input_gating (g : Game) (rs : ℕ → RandDraw) :
    (∀ k : Key, g.ended = true → ¬ k = Key.enter → Game.handleInput rs k g = g) ∧
    (g.ended = true →
      (Game.handleInput rs Key.enter g).player.x = 217 ∧
      (Game.handleInput rs Key.enter g).player.y = 466 ∧
      (Game.handleInput rs Key.enter g).player.winner = false ∧
      (Game.handleInput rs Key.enter g).ended = false) ∧
    (g.ended = false → Game.handleInput rs Key.other g = g) := by
  refine ⟨?_, ?_, ?_⟩
  · intro k he hk
    simp [Game.handleInput, he, hk]
  · intro he
    simp [Game.handleInput, he, Game.reset, Player.resetState]
  · intro he
    obtain ⟨es, p, en⟩ := g
    simp only at he
    subst he
    rfl

/-- Witness for C7 at a concrete ended game. -/
theorem input_gating_witness :
    ¬ Key.left = Key.enter ∧
    Game.handleInput (fun _ => ⟨0, 0⟩) Key.left
        { enemies := [], player := Player.init, ended := true } =
      { enemies := [], player := Player.init, ended := true } ∧
    (Game.handleInput (fun _ => ⟨0, 0⟩) Key.enter
        { enemies := [], player := Player.init, ended := true }).ended = false :=
  ⟨by decide,
    (input_gating { enemies := [], player := Player.init, ended := true }
        (fun _ => ⟨0, 0⟩)).1 Key.left rfl (by decide),
    ((input_gating { enemies := [], player := Player.init, ended := true }
        (fun _ => ⟨0, 0⟩)).2.1 rfl).2.2.2⟩

/-- Resetting the enemy at array index `i` (`this.enemies[i].reset()`),
leaving the others in place. -/
def resetEnemyAt (r : RandDraw) : ℕ → List Enemy → List Enemy
  | _, [] => []
  | 0, e :: es => Enemy.resetState r e :: es
  | n + 1, e :: es => e :: resetEnemyAt r n es

/-- `Enemy.prototype.reset` overwrites every field it touches, so a
second reset erases the first. -/
lemma resetState_resetState (r r' : RandDraw) (e : Enemy) :
    Enemy.resetState r (Enemy.resetState r' e) = Enemy.resetState r e := rfl

/-- Re-running the forEach reset erases the previous one. -/
lemma resetEnemies_resetEnemies (rs rs' : ℕ → RandDraw) (es : List Enemy) :
    resetEnemies rs' (resetEnemies rs es) = resetEnemies rs' es := by
  induction es generalizing rs rs' with
  | nil => rfl
  | cons e es ih => simp [resetEnemies, resetState_resetState, ih]

/-- `Player.prototype.reset` overwrites every field it touches, so a
second reset erases the first. -/
lemma player_resetState_resetState (p : Player) :
    Player.resetState (Player.resetState p) = Player.resetState p := rfl

/-- C8: `Game.reset` run twice (with fresh draws each time) equals a
single run with the second draws; an individual enemy reset is
idempotent; and resets of enemies at distinct indices commute. -/
theorem reset_idempotence :
    (∀ (g : Game) (rs rs' : ℕ → RandDraw),
      Game.reset rs' (Game.reset rs g) = Game.reset rs' g) ∧
    (∀ (e : Enemy) (r : RandDraw),
      Enemy.resetState r (Enemy.resetState r e) = Enemy.resetState r e) ∧
    (∀ (r r' : RandDraw) (i j : ℕ) (es : List Enemy), i ≠ j →
      resetEnemyAt r i (resetEnemyAt r' j es) =
        resetEnemyAt r' j (resetEnemyAt r i es)) := by
  refine ⟨?_, ?_, ?_⟩
  · intro g rs rs'
    simp [Game.reset, resetEnemies_resetEnemies, player_resetState_resetState]
  · intro e r
    rfl
  · intro r r' i j es hij
    induction es generalizing i j with
    | nil => cases i <;> cases j <;> rfl
    | cons e es ih =>
      cases i with
      | zero =>
        cases j with
        | zero => exact absurd rfl hij
        | succ j => rfl
      | succ i =>
        cases j with
        | zero => rfl
        | succ j => simpa [resetEnemyAt] using ih i j (by omega)

/-- Witness for C8: commuting resets at indices 0 and 1 of a concrete
two-enemy array. -/
theorem reset_idempotence_witness :
    (0 : ℕ) ≠ 1 ∧
    resetEnemyAt ⟨0, 0⟩ 0 (resetEnemyAt ⟨1, 17⟩ 1 [Enemy.init ⟨0, 0⟩, Enemy.init ⟨2, 5⟩]) =
      resetEnemyAt ⟨1, 17⟩ 1 (resetEnemyAt ⟨0, 0⟩ 0 [Enemy.init ⟨0, 0⟩, Enemy.init ⟨2, 5⟩]) :=
  ⟨by decide, reset_idempotence.2.2 ⟨0, 0⟩ ⟨1, 17⟩ 0 1 _ (by decide)⟩

/-- C9: invoking an operation that has no override dispatches to the
throwing base prototype method, eagerly producing the unimplemented
error; in particular constructing a bare base entity fails at once,
because the constructor invokes `reset`. -/
theorem unimplemented_capability :
    (∀ (S : Type) (s : S) (ops : EntityOps S), ops.resetImpl = none →
      Entity.construct ops s = Except.error (EntityError.unimplemented "reset")) ∧
    (∀ (S : Type) (s : S) (ops : EntityOps S), ops.imgXImpl = none →
      EntityOps.callImgX ops s = Except.error (EntityError.unimplemented "imgX")) ∧
    (∀ (S : Type) (s : S) (ops : EntityOps S), ops.imgYImpl = none →
      EntityOps.callImgY ops s = Except.error (EntityError.unimplemented "imgY")) ∧
    (∀ (S : Type) (s : S),
      Entity.construct (Entity.baseOps S) s =
        Except.error (EntityError.unimplemented "reset")) := by
  refine ⟨?_, ?_, ?_, ?_⟩ <;> intros <;>
    simp [Entity.construct, EntityOps.callReset, EntityOps.callImgX,
      EntityOps.callImgY, Entity.baseOps, *]

/-- Witness for C9: the bare base entity over a unit state. -/
theorem unimplemented_capability_witness :
    Entity.construct (Entity.baseOps Unit) () =
      Except.error (EntityError.unimplemented "reset") :=
  unimplemented_capability.1 Unit () (Entity.baseOps Unit) rfl

/-- One operation the host can invoke on the game object: a tick of
`updateEntities`, a keyboard event through `handleInput`, a
`renderEntities` pass, or a direct `reset`. -/
inductive Op where
  | tick (W dt : ℚ) (rsU rsR : ℕ → RandDraw)
  | keypress (rs : ℕ → RandDraw) (k : Key)
  | render
  | restart (rs : ℕ → RandDraw)

/-- Apply one host operation to the game state. -/
def applyOp : Op → Game → Game
  | Op.tick W dt rsU rsR, g => Game.updateEntities W dt rsU rsR g
  | Op.keypress rs k, g => Game.handleInput rs k g
  | Op.render, g => Game.renderEntities g
  | Op.restart rs, g => Game.reset rs g

/-- Apply a sequence of host operations, oldest first. -/
def applyOps (ops : List Op) (g : Game) : Game :=
  List.foldl (fun g op => applyOp op g) g ops

/-- `Player.update` never touches the `winner` field. -/
lemma update_winner (es : List Enemy) (p : Player) :
    (Player.update es p).winner = p.winner := by
  simp only [Player.update]
  split_ifs <;> rfl

/-- `Player.handleInput` never touches the `winner` field. -/
lemma handleInput_winner (k : Key) (p : Player) :
    (Player.handleInput k p).winner = p.winner := by
  cases k <;> rfl

/-- No single operation can make the player's `winner` flag true. -/
lemma applyOp_winner (op : Op) (g : Game) (h : g.player.winner = false) :
    (applyOp op g).player.winner = false := by
  cases op with
  | tick W dt rsU rsR =>
    simp only [applyOp, Game.updateEntities]
    split_ifs with hc
    · rfl
    · simpa [update_winner] using h
  | keypress rs k =>
    simp only [applyOp, Game.handleInput]
    split_ifs with h1 h2
    · rfl
    · exact h
    · simpa [handleInput_winner] using h
  | render =>
    simp only [applyOp, Game.renderEntities]
    split_ifs <;> exact h
  | restart rs => rfl

/-- No operation sequence can make the player's `winner` flag true. -/
lemma applyOps_winner (ops : List Op) (g : Game) (h : g.player.winner = false) :
    (applyOps ops g).player.winner = false := by
  induction ops generalizing g with
  | nil => exact h
  | cons op ops ih => exact ih _ (applyOp_winner op g h)

/-- C10: in every state reachable from construction the player's
`winner` flag is false, and the only operation that turns the `ended`
flag from false to true is `renderEntities`, and only when the avatar's
y is below 134. -/
theorem winner_flag_invariant :
    (∀ (r0 r1 r2 : RandDraw) (ops : List Op),
      (applyOps ops (Game.init r0 r1 r2)).player.winner = false) ∧
    (∀ (g : Game) (op : Op), g.ended = false → (applyOp op g).ended = true →
      op = Op.render ∧ g.player.y < 134) := by
  constructor
  · intro r0 r1 r2 ops
    exact applyOps_winner ops _ rfl
  · intro g op h1 h2
    cases op with
    | tick W dt rsU rsR =>
      exfalso
      simp only [applyOp, Game.updateEntities] at h2
      split_ifs at h2 with hc
      · simp [Game.reset] at h2
      · simp only at h2
        rw [h1] at h2
        exact Bool.false_ne_true h2
    | keypress rs k =>
      exfalso
      simp only [applyOp, Game.handleInput, h1] at h2
      exact Bool.false_ne_true h2
    | render =>
      simp only [applyOp, Game.renderEntities] at h2
      split_ifs at h2 with hy
      · exact ⟨rfl, hy⟩
      · rw [h1] at h2
        exact absurd h2 Bool.false_ne_true
    | restart rs =>
      exfalso
      simp [applyOp, Game.reset] at h2

/-- Witness for C10: a render on a goal-row state flips `ended`. -/
theorem winner_flag_invariant_witness :
    ({ enemies := [],
       player := { width := 71, height := 73, x := 217, y := 100, winner := false },
       ended := false } : Game).ended = false ∧
    (applyOp Op.render
      { enemies := [],
        player := { width := 71, height := 73, x := 217, y := 100, winner := false },
        ended := false }).ended = true ∧
    (Op.render = Op.render ∧
      ({ enemies := [],
         player := { width := 71, height := 73, x := 217, y := 100, winner := false },
         ended := false } : Game).player.y < 134) := by
  refine ⟨rfl, ?_, ?_⟩
  · norm_num [applyOp, Game.renderEntities]
  · exact winner_flag_invariant.2 _ Op.render rfl
      (by norm_num [applyOp, Game.renderEntities])
